import Mathlib

/-!
# Verification of the glancebar aggregation and caching layer

A shallow embedding of the core logic of `src/auth.ts` (and the duplicated
variant in the unnamed module): calendar-event merge and selection, Zoho task
ordering, the usage-limits cache, Zoho token refresh, and Zoho date parsing.

Conventions of the embedding:
* Instants (JS `Date` values and `Date.now()`) are epoch milliseconds as `Int`.
* Network and filesystem effects are passed explicitly: an HTTP call becomes an
  oracle argument describing its outcome, persisted files become input/output
  values, and a counter records how many times an oracle was consulted.
* A thrown-and-caught JS exception around an account fetch is an
  `Except.error` value consumed at the same boundary where the source catches.
* ECMAScript `Array.prototype.sort` (stable since ES2019) is modelled by
  `List.insertionSort`, which is stable and, for the total preorders used
  here, produces the unique stable sorted permutation.
-/

/-- `CalendarEvent` from `src/auth.ts` (interface at line 1044).
`endTime` embeds the `end` field (`end` is a Lean keyword). -/
structure CalendarEvent where
  id : String
  title : String
  start : Int
  endTime : Int
  isAllDay : Bool
  account : String
  accountEmail : String
  accountIndex : Nat
  provider : String
deriving DecidableEq, Repr

/-- The pass-1 test of `getCurrentOrNextEvent` (`src/auth.ts:1376`):
`event.start <= now && event.end > now`. -/
def inProgressB (e : CalendarEvent) (now : Int) : Bool :=
  decide (e.start ≤ now) && decide (now < e.endTime)

/-- The pass-2 test of `getCurrentOrNextEvent` (`src/auth.ts:1380`):
`event.start > now`. -/
def upcomingB (e : CalendarEvent) (now : Int) : Bool :=
  decide (now < e.start)

/-- `getCurrentOrNextEvent` (`src/auth.ts:1372-1384`): the first loop returns
the first event with `start <= now && end > now`; only if it finds nothing
does the second loop return the first event with `start > now`; otherwise
`null`.  `now` (read from `new Date()` in the source) is an explicit
argument. -/
def getCurrentOrNextEvent (events : List CalendarEvent) (now : Int) :
    Option CalendarEvent :=
  match events.find? (fun e => inProgressB e now) with
  | some e => some e
  | none => events.find? (fun e => upcomingB e now)

/-- C1: `getCurrentOrNextEvent` returns the first in-progress event in list
order when one exists; only when none exists does it return the first event
with `start > now`; and it returns `none` exactly when neither exists.  An
in-progress event is preferred to every upcoming event, and once an earlier
in-progress match exists every later in-progress event is ignored (the
first-match decomposition `events = l₁ ++ e :: l₂` with no match in `l₁`). -/
theorem getCurrentOrNextEvent_first_match (events : List CalendarEvent)
    (now : Int) (e : CalendarEvent) :
    (getCurrentOrNextEvent events now = some e →
      (inProgressB e now = true ∧
        ∃ l₁ l₂, events = l₁ ++ e :: l₂ ∧ ∀ x ∈ l₁, inProgressB x now = false) ∨
      ((∀ x ∈ events, inProgressB x now = false) ∧ upcomingB e now = true ∧
        ∃ l₁ l₂, events = l₁ ++ e :: l₂ ∧ ∀ x ∈ l₁, upcomingB x now = false)) ∧
    ((∃ x ∈ events, inProgressB x now = true) →
      ∃ e', getCurrentOrNextEvent events now = some e' ∧
        inProgressB e' now = true) ∧
    (getCurrentOrNextEvent events now = none ↔
      ∀ x ∈ events, inProgressB x now = false ∧ upcomingB x now = false) := by
  unfold getCurrentOrNextEvent
  refine ⟨?_, ?_, ?_⟩
  · intro h
    cases h1 : events.find? (fun e => inProgressB e now) with
    | some e1 =>
      rw [h1] at h
      cases h
      left
      have := List.find?_eq_some.mp h1
      simp only [Bool.not_eq_true'] at this
      exact ⟨this.1, this.2⟩
    | none =>
      rw [h1] at h
      right
      have hall := List.find?_eq_none.mp h1
      simp only [Bool.not_eq_true] at hall
      have := List.find?_eq_some.mp h
      simp only [Bool.not_eq_true'] at this
      exact ⟨hall, this.1, this.2⟩
  · rintro ⟨x, hx, hpx⟩
    cases h1 : events.find? (fun e => inProgressB e now) with
    | some e1 =>
      have hp : inProgressB e1 now = true :=
        List.find?_some (p := fun e => inProgressB e now) h1
      exact ⟨e1, rfl, hp⟩
    | none =>
      have := List.find?_eq_none.mp h1 x hx
      simp [hpx] at this
  · constructor
    · intro h x hx
      cases h1 : events.find? (fun e => inProgressB e now) with
      | some e1 => rw [h1] at h; cases h
      | none =>
        rw [h1] at h
        have h2 := List.find?_eq_none.mp h x hx
        have h3 := List.find?_eq_none.mp h1 x hx
        simp only [Bool.not_eq_true] at h2 h3
        exact ⟨h3, h2⟩
    · intro h
      have h1 : events.find? (fun e => inProgressB e now) = none :=
        List.find?_eq_none.mpr (fun x hx => by simp [(h x hx).1])
      rw [h1]
      exact List.find?_eq_none.mpr (fun x hx => by simp [(h x hx).2])

/-- A concrete list for the C1 witness: an upcoming event listed first, then
an in-progress event, then a second in-progress event that must be ignored. -/
def c1Upcoming : CalendarEvent :=
  { id := "u", title := "u", start := 150, endTime := 200, isAllDay := false,
    account := "a", accountEmail := "a@gmail.com", accountIndex := 0,
    provider := "google" }

def c1InProgress : CalendarEvent :=
  { id := "p", title := "p", start := 50, endTime := 160, isAllDay := false,
    account := "a", accountEmail := "a@gmail.com", accountIndex := 0,
    provider := "google" }

def c1LaterInProgress : CalendarEvent :=
  { id := "q", title := "q", start := 90, endTime := 170, isAllDay := false,
    account := "b", accountEmail := "b@gmail.com", accountIndex := 1,
    provider := "google" }

def c1Events : List CalendarEvent := [c1Upcoming, c1InProgress, c1LaterInProgress]

/-- Witness for C1 at `now = 100`: the in-progress event in the middle of the
list is selected ahead of the upcoming event listed before it and ahead of the
later in-progress event. -/
theorem getCurrentOrNextEvent_first_match_witness :
    ((inProgressB c1InProgress 100 = true ∧
        ∃ l₁ l₂, c1Events = l₁ ++ c1InProgress :: l₂ ∧
          ∀ x ∈ l₁, inProgressB x 100 = false) ∨
      ((∀ x ∈ c1Events, inProgressB x 100 = false) ∧
        upcomingB c1InProgress 100 = true ∧
        ∃ l₁ l₂, c1Events = l₁ ++ c1InProgress :: l₂ ∧
          ∀ x ∈ l₁, upcomingB x 100 = false)) ∧
    (∃ e', getCurrentOrNextEvent c1Events 100 = some e' ∧
      inProgressB e' 100 = true) :=
  ⟨(getCurrentOrNextEvent_first_match c1Events 100 c1InProgress).1 (by decide),
    (getCurrentOrNextEvent_first_match c1Events 100 c1InProgress).2.1
      ⟨c1InProgress, by decide, by decide⟩⟩

/-- C9: any event returned by `getCurrentOrNextEvent` is either in progress
(`start ≤ now < end`) or upcoming (`start > now`); an event that has already
ended (`start ≤ now` and `end ≤ now`) is never returned. -/
theorem getCurrentOrNextEvent_never_past (events : List CalendarEvent)
    (now : Int) (e : CalendarEvent)
    (h : getCurrentOrNextEvent events now = some e) :
    ((e.start ≤ now ∧ now < e.endTime) ∨ now < e.start) ∧
      ¬(e.start ≤ now ∧ e.endTime ≤ now) := by
  unfold getCurrentOrNextEvent at h
  cases h1 : events.find? (fun e => inProgressB e now) with
  | some e1 =>
    rw [h1] at h
    cases h
    have := List.find?_some h1
    simp only [inProgressB, Bool.and_eq_true, decide_eq_true_eq] at this
    exact ⟨Or.inl this, fun hc => absurd this.2 (not_lt.mpr hc.2)⟩
  | none =>
    rw [h1] at h
    have := List.find?_some h
    simp only [upcomingB, decide_eq_true_eq] at this
    exact ⟨Or.inr this, fun hc => absurd this (not_lt.mpr hc.1)⟩

def c9Past : CalendarEvent :=
  { id := "past", title := "past", start := 10, endTime := 20,
    isAllDay := false, account := "a", accountEmail := "a@gmail.com",
    accountIndex := 0, provider := "google" }

def c9Next : CalendarEvent :=
  { id := "next", title := "next", start := 140, endTime := 180,
    isAllDay := false, account := "a", accountEmail := "a@gmail.com",
    accountIndex := 0, provider := "google" }

/-- Witness for C9 at `now = 100`: with a past event listed first, the
returned event is the upcoming one and satisfies the conclusion. -/
theorem getCurrentOrNextEvent_never_past_witness :
    ((c9Next.start ≤ 100 ∧ (100 : Int) < c9Next.endTime) ∨
      (100 : Int) < c9Next.start) ∧
      ¬(c9Next.start ≤ 100 ∧ c9Next.endTime ≤ 100) :=
  getCurrentOrNextEvent_never_past [c9Past, c9Next] 100 c9Next (by decide)

/-- `ZohoAccount` from `src/auth.ts:385-388`. -/
structure ZohoAccount where
  email : String
  datacenter : String
deriving DecidableEq, Repr

/-- The fields of `Config` (`src/auth.ts:365-384`) consulted by the embedded
functions; the remaining fields only drive presentation. -/
structure Config where
  accounts : List String
  gmailAccounts : List String
  zohoAccounts : List ZohoAccount
  showZohoTasks : Bool
  maxTasksToShow : Nat
  usageLimitsCacheTTL : Int
deriving Repr

/-- `config.gmailAccounts.length > 0 ? config.gmailAccounts : config.accounts`
(`src/auth.ts:1064`, also 1057 and 1122). -/
def effectiveGmailAccounts (config : Config) : List String :=
  if config.gmailAccounts.length > 0 then config.gmailAccounts
  else config.accounts

/-- `getAllAccounts` (`src/auth.ts:1057-1061`): gmail accounts followed by the
Zoho account emails; positions in this list are the `accountIndex` values. -/
def getAllAccounts (config : Config) : List String :=
  effectiveGmailAccounts config ++ config.zohoAccounts.map (fun z => z.email)

/-- `getGoogleEvents` (`src/auth.ts:1063-1116`).  The body of the per-account
`try` block (authentication, the calendar HTTP call and the mapping of raw
items to `CalendarEvent`s) is the oracle `fetch account accountIndex`; a
thrown exception is `Except.error` and the source's `catch` converts it to
`[]`.  A `null` auth client also yields `[]`, which the oracle represents as
`Except.ok []`.  `Promise.all` keeps the per-account slots in account order,
and the slots are concatenated (`results.flat()`). -/
def getGoogleEvents (fetch : String → Nat → Except String (List CalendarEvent))
    (config : Config) : List CalendarEvent :=
  let allAccounts := getAllAccounts config
  ((effectiveGmailAccounts config).map (fun account =>
    let accountIndex := allAccounts.indexOf account
    match fetch account accountIndex with
    | Except.ok evs => evs
    | Except.error _ => [])).flatten

/-- `getZohoEvents` (`src/auth.ts:1118-1227`).  The whole per-account `try`
block (token refresh, the calendars and events HTTP calls, and the mapping of
raw entries) is the oracle `fetch account accountIndex`; the `catch` converts
a thrown exception to `[]`, and the early `return []` paths are `Except.ok []`
outcomes of the oracle.  `accountIndex` is `gmailCount + idx`
(`src/auth.ts:1125`). -/
def getZohoEvents (fetch : ZohoAccount → Nat → Except String (List CalendarEvent))
    (config : Config) : List CalendarEvent :=
  if config.zohoAccounts.length = 0 then []
  else
    let gmailCount := (effectiveGmailAccounts config).length
    (config.zohoAccounts.enum.map (fun p =>
      match fetch p.2 (gmailCount + p.1) with
      | Except.ok evs => evs
      | Except.error _ => [])).flatten

/-- The comparator of `getUpcomingEvents` (`src/auth.ts:1240`):
`(a, b) => a.start.getTime() - b.start.getTime()`, as the total preorder it
induces. -/
def eventLE (a b : CalendarEvent) : Prop := a.start ≤ b.start

instance : DecidableRel eventLE := fun a b => Int.decLe a.start b.start

instance : IsTotal CalendarEvent eventLE := ⟨fun a b => Int.le_total a.start b.start⟩

instance : IsTrans CalendarEvent eventLE := ⟨fun _ _ _ h1 h2 => le_trans h1 h2⟩

/-- `getUpcomingEvents` (`src/auth.ts:1229-1242`): concatenate the Google
events and the Zoho events, then sort by start instant with the stable
ECMAScript `Array.prototype.sort` (modelled by `List.insertionSort`). -/
def getUpcomingEvents
    (fetchG : String → Nat → Except String (List CalendarEvent))
    (fetchZ : ZohoAccount → Nat → Except String (List CalendarEvent))
    (config : Config) : List CalendarEvent :=
  List.insertionSort eventLE (getGoogleEvents fetchG config ++ getZohoEvents fetchZ config)

/-- Stability of the stable sort on any class of mutually tied elements:
the sorted list restricted to a predicate whose members are pairwise tied is
the input list restricted to that predicate. -/
theorem insertionSort_filter_tied {α : Type} (r : α → α → Prop)
    [DecidableRel r] (p : α → Bool) (l : List α)
    (hp : ∀ a b, p a = true → p b = true → r a b) :
    (l.insertionSort r).filter p = l.filter p := by
  have hmem : ∀ a ∈ l.filter p, p a = true := fun a ha => (List.mem_filter.mp ha).2
  have hpair : (l.filter p).Pairwise r := by
    refine List.pairwise_of_forall_mem_list ?_
    intro a ha b hb
    exact hp a b (hmem a ha) (hmem b hb)
  have hsub : List.Sublist (l.filter p) (l.insertionSort r) :=
    List.sublist_insertionSort hpair (List.filter_sublist l)
  have hsub2 : List.Sublist (l.filter p) ((l.insertionSort r).filter p) := by
    have h2 := hsub.filter p
    rwa [List.filter_filter,
      show ((fun a => p a && p a) = p) from funext (fun a => Bool.and_self (p a))] at h2
  have hperm : List.Perm ((l.insertionSort r).filter p) (l.filter p) :=
    (List.perm_insertionSort r l).filter p
  exact (hsub2.eq_of_length hperm.length_eq.symm).symm

/-- C2: the merged event list of `getUpcomingEvents` is sorted non-decreasing
by start instant, and for every start instant `t` the events with start `t`
appear in exactly the order they have in the concatenation of the Google
results (accounts in configured order) followed by the Zoho results (accounts
in configured order) — the account-configuration order. -/
theorem getUpcomingEvents_sorted_stable
    (fetchG : String → Nat → Except String (List CalendarEvent))
    (fetchZ : ZohoAccount → Nat → Except String (List CalendarEvent))
    (config : Config) :
    (getUpcomingEvents fetchG fetchZ config).Pairwise
      (fun a b => a.start ≤ b.start) ∧
    ∀ t : Int,
      (getUpcomingEvents fetchG fetchZ config).filter
          (fun e => decide (e.start = t)) =
        (getGoogleEvents fetchG config ++ getZohoEvents fetchZ config).filter
          (fun e => decide (e.start = t)) := by
  constructor
  · exact List.sorted_insertionSort eventLE _
  · intro t
    apply insertionSort_filter_tied
    intro a b ha hb
    simp only [decide_eq_true_eq] at ha hb
    show a.start ≤ b.start
    rw [ha, hb]

/-- C7: an exception inside one account's fetch (an `Except.error` outcome of
that account's oracle) produces exactly the same aggregate results as that
account returning no events, for `getGoogleEvents`, `getZohoEvents` and
`getUpcomingEvents` alike; every other account's contribution is computed
from an unchanged oracle, and the aggregation is a total function (it never
fails). -/
theorem account_failure_isolated
    (fetchG : String → Nat → Except String (List CalendarEvent))
    (fetchZ : ZohoAccount → Nat → Except String (List CalendarEvent))
    (config : Config) (a0 : String) (z0 : ZohoAccount) (errG errZ : String) :
    getGoogleEvents
        (fun acc idx => if acc = a0 then Except.error errG else fetchG acc idx)
        config =
      getGoogleEvents
        (fun acc idx => if acc = a0 then Except.ok [] else fetchG acc idx)
        config ∧
    getZohoEvents
        (fun acc idx => if acc = z0 then Except.error errZ else fetchZ acc idx)
        config =
      getZohoEvents
        (fun acc idx => if acc = z0 then Except.ok [] else fetchZ acc idx)
        config ∧
    getUpcomingEvents
        (fun acc idx => if acc = a0 then Except.error errG else fetchG acc idx)
        (fun acc idx => if acc = z0 then Except.error errZ else fetchZ acc idx)
        config =
      getUpcomingEvents
        (fun acc idx => if acc = a0 then Except.ok [] else fetchG acc idx)
        (fun acc idx => if acc = z0 then Except.ok [] else fetchZ acc idx)
        config := by
  have hg : getGoogleEvents
      (fun acc idx => if acc = a0 then Except.error errG else fetchG acc idx)
      config =
    getGoogleEvents
      (fun acc idx => if acc = a0 then Except.ok [] else fetchG acc idx)
      config := by
    simp only [getGoogleEvents]
    congr 1
    apply List.map_congr_left
    intro account _
    dsimp only
    by_cases h : account = a0 <;> simp [h]
  have hz : getZohoEvents
      (fun acc idx => if acc = z0 then Except.error errZ else fetchZ acc idx)
      config =
    getZohoEvents
      (fun acc idx => if acc = z0 then Except.ok [] else fetchZ acc idx)
      config := by
    simp only [getZohoEvents]
    by_cases hempty : config.zohoAccounts.length = 0
    · simp [hempty]
    · simp only [hempty, if_false]
      congr 1
      apply List.map_congr_left
      intro p _
      dsimp only
      by_cases h : p.2 = z0 <;> simp [h]
  refine ⟨hg, hz, ?_⟩
  unfold getUpcomingEvents
  rw [hg, hz]

/-- One utilization window of `UsageLimits` (`src/auth.ts:402-411`). -/
structure UsageWindow where
  utilization : Int
  resets_at : String
deriving DecidableEq, Repr

/-- `UsageLimits` (`src/auth.ts:402-411`). -/
structure UsageLimits where
  five_hour : UsageWindow
  seven_day : UsageWindow
deriving DecidableEq, Repr

/-- `UsageLimitsCache` (`src/auth.ts:413-417`): the single persisted cache
entry `{data, fetchedAt, ttl}`. -/
structure UsageLimitsCache where
  data : Option UsageLimits
  fetchedAt : Int
  ttl : Int
deriving DecidableEq, Repr

/-- `loadUsageLimitsCache` (`src/auth.ts:530-541`): a missing or unreadable
cache file (`none`) yields the default entry
`{data: null, fetchedAt: 0, ttl: 120000}`. -/
def loadUsageLimitsCache (file : Option UsageLimitsCache) : UsageLimitsCache :=
  match file with
  | none => { data := none, fetchedAt := 0, ttl := 120000 }
  | some cache => cache

/-- The raw window fields of the quota response body as the code reads them
(`src/auth.ts:578-590`); a missing field is `none`. -/
structure RawUsageWindow where
  utilization : Option Int
  resets_at : Option String
deriving DecidableEq, Repr

/-- The observable outcome of the quota HTTP exchange inside
`fetchUsageLimitsFromAPI`: a thrown error (network failure or the 5s abort),
a non-2xx response, or a parsed JSON body whose `five_hour` / `seven_day`
members may be absent. -/
inductive QuotaExchange where
  | thrown : QuotaExchange
  | notOk : QuotaExchange
  | body (five_hour : Option RawUsageWindow) (seven_day : Option RawUsageWindow) : QuotaExchange
deriving DecidableEq, Repr

/-- `fetchUsageLimitsFromAPI` (`src/auth.ts:553-595`): `none` when the local
credential is absent (`!creds?.claudeAiOauth?.accessToken`), the fetch throws
or times out, the response is non-2xx, or the body lacks `five_hour` or
`seven_day`; otherwise the two windows with the JS `|| 0` / `|| ""`
defaulting of missing members. -/
def fetchUsageLimitsFromAPI (accessToken : Option String)
    (exchange : QuotaExchange) : Option UsageLimits :=
  match accessToken with
  | none => none
  | some _ =>
    match exchange with
    | QuotaExchange.thrown => none
    | QuotaExchange.notOk => none
    | QuotaExchange.body fiveHour sevenDay =>
      match fiveHour, sevenDay with
      | some fh, some sd =>
        some { five_hour := { utilization := fh.utilization.getD 0,
                              resets_at := fh.resets_at.getD "" },
               seven_day := { utilization := sd.utilization.getD 0,
                              resets_at := sd.resets_at.getD "" } }
      | _, _ => none

/-- The observable outcome of one `getUsageLimits` run: the returned value,
the cache entry written by `saveUsageLimitsCache` (if any), and how many
times the quota endpoint was contacted. -/
structure UsageLimitsOutcome where
  result : Option UsageLimits
  savedCache : Option UsageLimitsCache
  networkCalls : Nat
deriving DecidableEq, Repr

/-- `getUsageLimits` (`src/auth.ts:597-622`): load the persisted entry; if it
has data and `now - fetchedAt < config.usageLimitsCacheTTL * 1000`, return it
with no network call; otherwise consult the API once (`fetchResult` is what
`fetchUsageLimitsFromAPI` returned), persisting and returning fresh data on
success and falling back to the previous entry's data (`cache.data || null`)
on failure. -/
def getUsageLimits (config : Config) (file : Option UsageLimitsCache)
    (now : Int) (fetchResult : Option UsageLimits) : UsageLimitsOutcome :=
  let cache := loadUsageLimitsCache file
  let ttlMs := config.usageLimitsCacheTTL * 1000
  if cache.data.isSome ∧ now - cache.fetchedAt < ttlMs then
    { result := cache.data, savedCache := none, networkCalls := 0 }
  else
    match fetchResult with
    | some freshData =>
      { result := some freshData,
        savedCache := some { data := some freshData, fetchedAt := now, ttl := ttlMs },
        networkCalls := 1 }
    | none =>
      { result := cache.data, savedCache := none, networkCalls := 1 }

/-- C4: whenever the fetch fails — the credential file has no access token,
the request throws or times out, the response is non-2xx, or the body lacks a
required member, i.e. `fetchUsageLimitsFromAPI` yields `none` —
`getUsageLimits` returns the previously persisted entry's data unchanged, no
matter how stale, and returns `none` exactly when no entry has ever been
populated. -/
theorem getUsageLimits_serves_stale (config : Config)
    (file : Option UsageLimitsCache) (now : Int)
    (accessToken : Option String) (exchange : QuotaExchange)
    (hfail : fetchUsageLimitsFromAPI accessToken exchange = none) :
    (getUsageLimits config file now
        (fetchUsageLimitsFromAPI accessToken exchange)).result =
      (loadUsageLimitsCache file).data ∧
    ((getUsageLimits config file now
        (fetchUsageLimitsFromAPI accessToken exchange)).result = none ↔
      (loadUsageLimitsCache file).data = none) := by
  rw [hfail]
  unfold getUsageLimits
  dsimp only
  constructor
  · split <;> rfl
  · split <;> exact Iff.rfl

def c4Limits : UsageLimits :=
  { five_hour := { utilization := 42, resets_at := "r1" },
    seven_day := { utilization := 7, resets_at := "r2" } }

/-- Witness for C4: a very stale entry (fetched at 0, queried at 10^9 ms) is
still served when the credential is missing. -/
theorem getUsageLimits_serves_stale_witness :
    (getUsageLimits
        { accounts := [], gmailAccounts := [], zohoAccounts := [],
          showZohoTasks := true, maxTasksToShow := 3, usageLimitsCacheTTL := 120 }
        (some { data := some c4Limits, fetchedAt := 0, ttl := 120000 })
        1000000000
        (fetchUsageLimitsFromAPI none QuotaExchange.thrown)).result =
      (loadUsageLimitsCache
        (some { data := some c4Limits, fetchedAt := 0, ttl := 120000 })).data ∧
    ((getUsageLimits
        { accounts := [], gmailAccounts := [], zohoAccounts := [],
          showZohoTasks := true, maxTasksToShow := 3, usageLimitsCacheTTL := 120 }
        (some { data := some c4Limits, fetchedAt := 0, ttl := 120000 })
        1000000000
        (fetchUsageLimitsFromAPI none QuotaExchange.thrown)).result = none ↔
      (loadUsageLimitsCache
        (some { data := some c4Limits, fetchedAt := 0, ttl := 120000 })).data = none) :=
  getUsageLimits_serves_stale _ _ 1000000000 none QuotaExchange.thrown rfl

/-- C5: with a populated entry still inside the config TTL (seconds, default
120 in `DEFAULT_CONFIG`), `getUsageLimits` answers from the cache with zero
network calls, whatever the network would have returned; and a second call
within the TTL of a first successful fetch costs one network call in total
and returns the fetched data. -/
theorem getUsageLimits_cache_hit (config : Config)
    (file : Option UsageLimitsCache) (now t0 t1 : Int) (d0 : UsageLimits)
    (fetch1 fetch2 : Option UsageLimits)
    (hdata : (loadUsageLimitsCache file).data.isSome)
    (hfresh : now - (loadUsageLimitsCache file).fetchedAt <
      config.usageLimitsCacheTTL * 1000)
    (hgap : t1 - t0 < config.usageLimitsCacheTTL * 1000) :
    ((getUsageLimits config file now fetch1).result =
        (loadUsageLimitsCache file).data ∧
      (getUsageLimits config file now fetch1).networkCalls = 0) ∧
    ((getUsageLimits config none t0 (some d0)).networkCalls +
        (getUsageLimits config
          (getUsageLimits config none t0 (some d0)).savedCache t1
          fetch2).networkCalls = 1 ∧
      (getUsageLimits config
          (getUsageLimits config none t0 (some d0)).savedCache t1
          fetch2).result = some d0) := by
  constructor
  · unfold getUsageLimits
    rw [if_pos ⟨hdata, hfresh⟩]
    exact ⟨rfl, rfl⟩
  · have hmiss : ¬((loadUsageLimitsCache (none : Option UsageLimitsCache)).data.isSome ∧
        t0 - (loadUsageLimitsCache (none : Option UsageLimitsCache)).fetchedAt <
          config.usageLimitsCacheTTL * 1000) := by
      intro hc
      simp [loadUsageLimitsCache] at hc
    have hfirst : getUsageLimits config none t0 (some d0) =
        { result := some d0,
          savedCache := some { data := some d0, fetchedAt := t0,
                               ttl := config.usageLimitsCacheTTL * 1000 },
          networkCalls := 1 } := by
      unfold getUsageLimits
      rw [if_neg hmiss]
    rw [hfirst]
    unfold getUsageLimits
    rw [if_pos ⟨by simp [loadUsageLimitsCache], by simpa [loadUsageLimitsCache] using hgap⟩]
    exact ⟨rfl, rfl⟩

def c5Config : Config :=
  { accounts := [], gmailAccounts := [], zohoAccounts := [],
    showZohoTasks := true, maxTasksToShow := 3, usageLimitsCacheTTL := 120 }

/-- Witness for C5 with the default TTL of 120 seconds: a hit 60 seconds
after the entry was fetched, and a second call 90 seconds after a first
successful fetch; one network call in total. -/
theorem getUsageLimits_cache_hit_witness :
    ((getUsageLimits c5Config
        (some { data := some c4Limits, fetchedAt := 1000, ttl := 5 })
        61000 none).result =
      (loadUsageLimitsCache
        (some { data := some c4Limits, fetchedAt := 1000, ttl := 5 })).data ∧
      (getUsageLimits c5Config
        (some { data := some c4Limits, fetchedAt := 1000, ttl := 5 })
        61000 none).networkCalls = 0) ∧
    ((getUsageLimits c5Config none 0 (some c4Limits)).networkCalls +
        (getUsageLimits c5Config
          (getUsageLimits c5Config none 0 (some c4Limits)).savedCache 90000
          none).networkCalls = 1 ∧
      (getUsageLimits c5Config
          (getUsageLimits c5Config none 0 (some c4Limits)).savedCache 90000
          none).result = some c4Limits) :=
  getUsageLimits_cache_hit c5Config
    (some { data := some c4Limits, fetchedAt := 1000, ttl := 5 })
    61000 0 90000 c4Limits none none (by decide) (by decide) (by decide)

/-- C10: the `ttl` field persisted inside the cache file is dead data — two
entries differing only in their stored `ttl` produce identical results,
identical cache writes and identical network behavior; freshness is judged
only against `config.usageLimitsCacheTTL` and the entry's `fetchedAt`. -/
theorem getUsageLimits_ignores_stored_ttl (config : Config)
    (d : Option UsageLimits) (fetchedAt ttl1 ttl2 now : Int)
    (fetchResult : Option UsageLimits) :
    getUsageLimits config
        (some { data := d, fetchedAt := fetchedAt, ttl := ttl1 }) now fetchResult =
      getUsageLimits config
        (some { data := d, fetchedAt := fetchedAt, ttl := ttl2 }) now fetchResult :=
  rfl

/-- `ZohoToken` (`src/auth.ts:719-724`). -/
structure ZohoToken where
  access_token : String
  refresh_token : String
  expires_at : Int
  api_domain : Option String
deriving DecidableEq, Repr

/-- The fields of a successfully parsed token-endpoint response body that
`refreshZohoToken` reads (`src/auth.ts:939-940`): `data.access_token` and
`data.expires_in`.  The response may or may not carry a new refresh token;
the code never reads one, which is why this structure has no such field. -/
structure ZohoRefreshResponse where
  access_token : String
  expires_in : Int
deriving DecidableEq, Repr

/-- The observable outcome of one `refreshZohoToken` run: the returned token,
the token written back to the token file (if any), and how many refresh
exchanges were performed against the token endpoint. -/
structure ZohoRefreshOutcome where
  result : Option ZohoToken
  savedToken : Option ZohoToken
  refreshCalls : Nat
deriving DecidableEq, Repr

/-- `refreshZohoToken` (`src/auth.ts:905-948`).  `file` is the persisted
token record (none if the token file does not exist); `response` is the
outcome of the single refresh exchange — `none` when the fetch throws, the
response is non-2xx, or the body fails to parse, `some data` when a body was
parsed.  A still-valid token (`expires_at > now + 300000`) is returned
unchanged with no exchange; otherwise one exchange happens and, on success,
`{...token, access_token, expires_at}` is persisted and returned. -/
def refreshZohoToken (file : Option ZohoToken) (now : Int)
    (response : Option ZohoRefreshResponse) : ZohoRefreshOutcome :=
  match file with
  | none => { result := none, savedToken := none, refreshCalls := 0 }
  | some token =>
    if token.expires_at > now + 300000 then
      { result := some token, savedToken := none, refreshCalls := 0 }
    else
      match response with
      | none => { result := none, savedToken := none, refreshCalls := 1 }
      | some data =>
        let updatedToken : ZohoToken :=
          { token with access_token := data.access_token,
                       expires_at := now + data.expires_in * 1000 }
        { result := some updatedToken, savedToken := some updatedToken,
          refreshCalls := 1 }

/-- C6: a persisted token whose `expires_at` is more than 5 minutes after
`now` is returned unchanged with zero refresh calls; a token inside the
buffer triggers exactly one exchange and, on success, persists and returns a
record in which only `access_token` and `expires_at` are overwritten while
`refresh_token` and `api_domain` are retained (the response carries no
refresh token to begin with); an absent record, or a failed exchange, yields
`none`. -/
theorem refreshZohoToken_lifecycle (file : Option ZohoToken)
    (token : ZohoToken) (now : Int) (response : Option ZohoRefreshResponse)
    (data : ZohoRefreshResponse) :
    (file = some token → token.expires_at > now + 300000 →
      refreshZohoToken file now response =
        { result := some token, savedToken := none, refreshCalls := 0 }) ∧
    (file = some token → ¬token.expires_at > now + 300000 →
      ∃ t', refreshZohoToken file now (some data) =
          { result := some t', savedToken := some t', refreshCalls := 1 } ∧
        t'.access_token = data.access_token ∧
        t'.expires_at = now + data.expires_in * 1000 ∧
        t'.refresh_token = token.refresh_token ∧
        t'.api_domain = token.api_domain) ∧
    (file = none →
      refreshZohoToken file now response =
        { result := none, savedToken := none, refreshCalls := 0 }) ∧
    (file = some token → ¬token.expires_at > now + 300000 →
      refreshZohoToken file now none =
        { result := none, savedToken := none, refreshCalls := 1 }) := by
  refine ⟨?_, ?_, ?_, ?_⟩
  · rintro rfl hvalid
    unfold refreshZohoToken
    dsimp only
    rw [if_pos hvalid]
  · rintro rfl hstale
    refine ⟨{ token with
                access_token := data.access_token,
                expires_at := now + data.expires_in * 1000 },
      ?_, rfl, rfl, rfl, rfl⟩
    unfold refreshZohoToken
    dsimp only
    rw [if_neg hstale]
  · rintro rfl
    rfl
  · rintro rfl hstale
    unfold refreshZohoToken
    dsimp only
    rw [if_neg hstale]

def c6Token : ZohoToken :=
  { access_token := "old", refresh_token := "keepme", expires_at := 1000000,
    api_domain := some "api.zoho.com" }

def c6Response : ZohoRefreshResponse :=
  { access_token := "fresh", expires_in := 3600 }

/-- Witness for C6: at `now = 0` the token (expiring at 10^6 ms > 3·10^5 ms)
is returned with zero calls; at `now = 900000` (inside the 5-minute buffer)
one exchange happens and the persisted record keeps the old refresh token
and api domain while taking the new access token and expiry. -/
theorem refreshZohoToken_lifecycle_witness :
    refreshZohoToken (some c6Token) 0 (some c6Response) =
      { result := some c6Token, savedToken := none, refreshCalls := 0 } ∧
    ∃ t', refreshZohoToken (some c6Token) 900000 (some c6Response) =
        { result := some t', savedToken := some t', refreshCalls := 1 } ∧
      t'.access_token = c6Response.access_token ∧
      t'.expires_at = 900000 + c6Response.expires_in * 1000 ∧
      t'.refresh_token = c6Token.refresh_token ∧
      t'.api_domain = c6Token.api_domain :=
  ⟨(refreshZohoToken_lifecycle (some c6Token) c6Token 0 (some c6Response)
      c6Response).1 rfl (by decide),
    (refreshZohoToken_lifecycle (some c6Token) c6Token 900000 (some c6Response)
      c6Response).2.1 rfl (by decide)⟩

/-- `ZohoTask` (`src/auth.ts:1248-1256`).  The `priority` field is typed as a
union in the source, but at runtime it holds whatever string the API sent
(defaulted to "Normal" only when falsy), so it is a `String` here. -/
structure ZohoTask where
  id : String
  title : String
  description : String
  dueDate : Option Int
  priority : String
  status : String
  isOverdue : Bool
deriving DecidableEq, Repr

/-- The lookup `priorityOrder[p]` against the literal
`{High: 0, Normal: 1, Low: 2}` (`src/auth.ts:1335`); an unrecognized
key is JS `undefined`, i.e. `none`. -/
def priorityOrderLookup (p : String) : Option Int :=
  if p = "High" then some 0
  else if p = "Normal" then some 1
  else if p = "Low" then some 2
  else none

/-- JS `x || d` for `x = priorityOrder[p]`: both `undefined` and `0` are
falsy, so the default `d` replaces them — including the rank 0 of "High". -/
def jsOrDefault (x : Option Int) (d : Int) : Int :=
  match x with
  | none => d
  | some v => if v = 0 then d else v

/-- The task comparator of `getZohoTasks` (`src/auth.ts:1322-1337`): overdue
first; then ascending due date with dated tasks before undated ones (equal
present due dates return 0 without consulting priority); only when both due
dates are absent, the difference of `(priorityOrder[p] || 1)` ranks. -/
def taskCompare (a b : ZohoTask) : Int :=
  if a.isOverdue && !b.isOverdue then -1
  else if !a.isOverdue && b.isOverdue then 1
  else
    match a.dueDate, b.dueDate with
    | some da, some db => da - db
    | some _, none => -1
    | none, some _ => 1
    | none, none =>
      jsOrDefault (priorityOrderLookup a.priority) 1 -
        jsOrDefault (priorityOrderLookup b.priority) 1

/-- The total preorder induced by `taskCompare` (an element sorts no later
than another when the comparator is ≤ 0). -/
def taskLE (a b : ZohoTask) : Prop := taskCompare a b ≤ 0

instance : DecidableRel taskLE := fun a b => Int.decLe (taskCompare a b) 0

/-- `getZohoTasks` (`src/auth.ts:1258-1340`).  Each account's `try` body
(token refresh, the tasks HTTP call, and the per-task mapping that skips
completed tasks, parses `DD/MM/YYYY` due dates and computes `isOverdue`) is
the oracle `fetch account`; `catch`/`continue` contribute nothing.  The
concatenated tasks are sorted with the stable `Array.prototype.sort` under
`taskCompare` and truncated to `maxTasksToShow` afterwards. -/
def getZohoTasks (fetch : ZohoAccount → Except String (List ZohoTask))
    (config : Config) : List ZohoTask :=
  if config.zohoAccounts.length = 0 then []
  else if config.showZohoTasks = false then []
  else
    let allTasks := (config.zohoAccounts.map (fun account =>
      match fetch account with
      | Except.ok tasks => tasks
      | Except.error _ => [])).flatten
    (allTasks.insertionSort taskLE).take config.maxTasksToShow

def c3Account : ZohoAccount := { email := "a@zoho.com", datacenter := "com" }

def c3Config : Config :=
  { accounts := [], gmailAccounts := [], zohoAccounts := [c3Account],
    showZohoTasks := true, maxTasksToShow := 3, usageLimitsCacheTTL := 120 }

def c3NormalTask : ZohoTask :=
  { id := "1", title := "normal", description := "", dueDate := none,
    priority := "Normal", status := "Open", isOverdue := false }

def c3HighTask : ZohoTask :=
  { id := "2", title := "high", description := "", dueDate := none,
    priority := "High", status := "Open", isOverdue := false }

/-- C3 (code bug): the claimed rank High before Normal never happens.
`priorityOrder["High"]` is `0`, which is falsy in JS, so
`priorityOrder[a.priority] || 1` evaluates to `1` — the same rank the code
itself assigns to "Normal" — and the comparator returns 0, so the stable sort
leaves a Normal task listed before a High task in place.  Evaluated here:
with two non-overdue, undated tasks `[Normal, High]`, `getZohoTasks` keeps
`[Normal, High]` (the claim demands `[High, Normal]`), precisely because the
two ranks computed by the code's own `jsOrDefault` collapse to `1 = 1`. -/
theorem getZohoTasks_high_rank_collapses :
    getZohoTasks (fun _ => Except.ok [c3NormalTask, c3HighTask]) c3Config =
      [c3NormalTask, c3HighTask] ∧
    jsOrDefault (priorityOrderLookup "High") 1 =
      jsOrDefault (priorityOrderLookup "Normal") 1 ∧
    taskCompare c3NormalTask c3HighTask = 0 := by
  refine ⟨?_, by decide, by decide⟩
  decide

/-- Days between a civil date (proleptic Gregorian, `year ≥ 1`,
`month ∈ [1,12]`, `day ∈ [1,31]`) and 1970-01-01, by the standard
civil-from-days algorithm. -/
def daysFromCivil (y m d : Nat) : Int :=
  let y' := if m ≤ 2 then y - 1 else y
  let era := y' / 400
  let yoe := y' % 400
  let mp := if m > 2 then m - 3 else m + 9
  let doy := (153 * mp + 2) / 5 + d - 1
  let doe := yoe * 365 + yoe / 4 - yoe / 100 + doy
  (era * 146097 + doe : Int) - 719468

/-- ECMAScript `MakeFullYear` (ECMA-262 21.4.3.2): an integer year argument
in `[0,99]` passed to `Date.UTC` or to the multi-argument `Date` constructor
denotes `1900 + year`; other years denote themselves. -/
def makeFullYear (year : Nat) : Nat :=
  if year ≤ 99 then year + 1900 else year

/-- JS `Date.UTC(year, monthIndex, day, hour, minute, second)` in epoch
milliseconds — including the `MakeFullYear` mapping of year arguments 0-99
to 1900-1999 — restricted to in-range month/day arguments
(`monthIndex ∈ [0,11]`, `day ∈ [1,31]`), which covers every well-formed Zoho
date string. -/
def dateUTC (year monthIndex day hour minute second : Nat) : Int :=
  daysFromCivil (makeFullYear year) (monthIndex + 1) day * 86400000 +
    ((hour * 3600000 + minute * 60000 + second * 1000 : Nat) : Int)

/-- Capture group 7 of the `parseZohoDate` regex
(`src/auth.ts:1183`): a trailing `Z`, or a sign with a 4-digit offset. -/
inductive ZohoTZ where
  | utc : ZohoTZ
  | offset (plus : Bool) (tzHour tzMin : Nat) : ZohoTZ
deriving DecidableEq, Repr

/-- The numeric value of two matched digit characters. -/
def val2 (c1 c2 : Char) : Nat :=
  (c1.toNat - 48) * 10 + (c2.toNat - 48)

/-- The numeric value of four matched digit characters. -/
def val4 (c1 c2 c3 c4 : Char) : Nat :=
  (c1.toNat - 48) * 1000 + (c2.toNat - 48) * 100 + (c3.toNat - 48) * 10 +
    (c4.toNat - 48)

/-- Matching of the optional trailing group `([Z]|([+-])(\d{2})(\d{2}))?$`
of the `parseZohoDate` regex against the remaining characters. -/
def matchZohoTZ : List Char → Option (Option ZohoTZ)
  | [] => some none
  | ['Z'] => some (some ZohoTZ.utc)
  | [sc, t1, t2, t3, t4] =>
    if (sc == '+' || sc == '-') && t1.isDigit && t2.isDigit && t3.isDigit &&
        t4.isDigit then
      some (some (ZohoTZ.offset (sc == '+') (val2 t1 t2) (val2 t3 t4)))
    else none
  | _ => none

/-- The anchored regex of `parseZohoDate` (`src/auth.ts:1183`):
`^(\d{4})(\d{2})(\d{2})T(\d{2})(\d{2})(\d{2})([Z]|([+-])(\d{2})(\d{2}))?$`,
returning the numeric capture groups on a match. -/
def matchZohoDate :
    List Char → Option (Nat × Nat × Nat × Nat × Nat × Nat × Option ZohoTZ)
  | y1 :: y2 :: y3 :: y4 :: m1 :: m2 :: d1 :: d2 :: tc :: h1 :: h2 :: i1 ::
      i2 :: s1 :: s2 :: rest =>
    if (tc == 'T') && y1.isDigit && y2.isDigit && y3.isDigit && y4.isDigit &&
        m1.isDigit && m2.isDigit && d1.isDigit && d2.isDigit && h1.isDigit &&
        h2.isDigit && i1.isDigit && i2.isDigit && s1.isDigit && s2.isDigit then
      match matchZohoTZ rest with
      | some tz =>
        some (val4 y1 y2 y3 y4, val2 m1 m2, val2 d1 d2, val2 h1 h2,
          val2 i1 i2, val2 s1 s2, tz)
      | none => none
    else none
  | _ => none

/-- `parseZohoDate` (`src/auth.ts:1181-1198`).  `localOffsetMin` is the local
zone's offset east of UTC in minutes, so the no-zone branch
(`new Date(y, m-1, d, h, min, sec)`, local wall time) lands at
`utc - localOffsetMin * 60000`; `fallback` stands for the result of the
`new Date(dateStr)` path taken when the regex does not match.  A `+hhmm`
offset is mapped to `offsetMinutes = -(hh*60+mm)` and a `-hhmm` offset to
`+(hh*60+mm)`, added to the UTC-interpreted wall time (`src/auth.ts:1189`). -/
def parseZohoDate (s : String) (localOffsetMin : Int) (fallback : Int) : Int :=
  match matchZohoDate s.data with
  | some (year, month, day, hour, minute, second, tz) =>
    match tz with
    | some ZohoTZ.utc => dateUTC year (month - 1) day hour minute second
    | some (ZohoTZ.offset plus tzHour tzMin) =>
      let offsetMinutes : Int :=
        ((tzHour * 60 + tzMin : Nat) : Int) * (if plus then -1 else 1)
      dateUTC year (month - 1) day hour minute second + offsetMinutes * 60000
    | none =>
      dateUTC year (month - 1) day hour minute second - localOffsetMin * 60000
  | none => fallback

/-- Fixed-width decimal rendering of a 2-digit field. -/
def pad2 (n : Nat) : List Char :=
  [Nat.digitChar (n / 10), Nat.digitChar (n % 10)]

/-- Fixed-width decimal rendering of a 4-digit field. -/
def pad4 (n : Nat) : List Char :=
  [Nat.digitChar (n / 1000), Nat.digitChar (n / 100 % 10),
    Nat.digitChar (n / 10 % 10), Nat.digitChar (n % 10)]

/-- Rendering of the optional zone suffix of a Zoho date string. -/
def renderZohoTZ : Option ZohoTZ → List Char
  | none => []
  | some ZohoTZ.utc => ['Z']
  | some (ZohoTZ.offset plus tzHour tzMin) =>
    (if plus then '+' else '-') :: (pad2 tzHour ++ pad2 tzMin)

/-- A well-formed Zoho date string `YYYYMMDDTHHmmss` plus optional zone. -/
def renderZohoDate (y mo d h mi s : Nat) (tz : Option ZohoTZ) : String :=
  String.mk (pad4 y ++ pad2 mo ++ pad2 d ++ 'T' ::
    (pad2 h ++ pad2 mi ++ pad2 s ++ renderZohoTZ tz))

theorem digitChar_spec : ∀ k : Nat, k < 10 →
    (Nat.digitChar k).isDigit = true ∧ (Nat.digitChar k).toNat = k + 48 := by
  decide

theorem val2_digitChar (n : Nat) (h : n ≤ 99) :
    val2 (Nat.digitChar (n / 10)) (Nat.digitChar (n % 10)) = n := by
  have h1 := digitChar_spec (n / 10) (by omega)
  have h2 := digitChar_spec (n % 10) (by omega)
  simp only [val2, h1.2, h2.2]
  omega

theorem val4_digitChar (n : Nat) (h : n ≤ 9999) :
    val4 (Nat.digitChar (n / 1000)) (Nat.digitChar (n / 100 % 10))
      (Nat.digitChar (n / 10 % 10)) (Nat.digitChar (n % 10)) = n := by
  have h1 := digitChar_spec (n / 1000) (by omega)
  have h2 := digitChar_spec (n / 100 % 10) (by omega)
  have h3 := digitChar_spec (n / 10 % 10) (by omega)
  have h4 := digitChar_spec (n % 10) (by omega)
  simp only [val4, h1.2, h2.2, h3.2, h4.2]
  omega

/-- The zone-suffix bounds needed for the rendering round trip. -/
def tzBounded : Option ZohoTZ → Prop
  | some (ZohoTZ.offset _ tzHour tzMin) => tzHour ≤ 99 ∧ tzMin ≤ 99
  | _ => True

theorem matchZohoTZ_render (tz : Option ZohoTZ) (htz : tzBounded tz) :
    matchZohoTZ (renderZohoTZ tz) = some tz := by
  match tz with
  | none => rfl
  | some ZohoTZ.utc => rfl
  | some (ZohoTZ.offset plus tzHour tzMin) =>
    obtain ⟨hH, hM⟩ := htz
    have d1 := digitChar_spec (tzHour / 10) (by omega)
    have d2 := digitChar_spec (tzHour % 10) (by omega)
    have d3 := digitChar_spec (tzMin / 10) (by omega)
    have d4 := digitChar_spec (tzMin % 10) (by omega)
    cases plus <;>
      simp [renderZohoTZ, pad2, matchZohoTZ, d1.1, d2.1, d3.1, d4.1,
        val2_digitChar tzHour hH, val2_digitChar tzMin hM]

theorem matchZohoDate_render (y mo d h mi s : Nat) (tz : Option ZohoTZ)
    (hy : y ≤ 9999) (hmo : mo ≤ 99) (hd : d ≤ 99) (hh : h ≤ 99)
    (hmi : mi ≤ 99) (hs : s ≤ 99) (htz : tzBounded tz) :
    matchZohoDate (pad4 y ++ pad2 mo ++ pad2 d ++ 'T' ::
        (pad2 h ++ pad2 mi ++ pad2 s ++ renderZohoTZ tz)) =
      some (y, mo, d, h, mi, s, tz) := by
  have g1 := digitChar_spec (y / 1000) (by omega)
  have g2 := digitChar_spec (y / 100 % 10) (by omega)
  have g3 := digitChar_spec (y / 10 % 10) (by omega)
  have g4 := digitChar_spec (y % 10) (by omega)
  have g5 := digitChar_spec (mo / 10) (by omega)
  have g6 := digitChar_spec (mo % 10) (by omega)
  have g7 := digitChar_spec (d / 10) (by omega)
  have g8 := digitChar_spec (d % 10) (by omega)
  have g9 := digitChar_spec (h / 10) (by omega)
  have g10 := digitChar_spec (h % 10) (by omega)
  have g11 := digitChar_spec (mi / 10) (by omega)
  have g12 := digitChar_spec (mi % 10) (by omega)
  have g13 := digitChar_spec (s / 10) (by omega)
  have g14 := digitChar_spec (s % 10) (by omega)
  simp only [pad4, pad2, List.cons_append, List.nil_append]
  rw [matchZohoDate]
  simp only [g1.1, g2.1, g3.1, g4.1, g5.1, g6.1, g7.1, g8.1, g9.1, g10.1,
    g11.1, g12.1, g13.1, g14.1, Bool.and_true, Bool.true_and, beq_self_eq_true,
    if_true, matchZohoTZ_render tz htz, val4_digitChar y hy,
    val2_digitChar mo hmo, val2_digitChar d hd, val2_digitChar h hh,
    val2_digitChar mi hmi, val2_digitChar s hs]

/-- C8: decoding of well-formed Zoho timed-event date strings.  A trailing
`Z` yields the UTC interpretation of the wall-time fields; a `+hhmm` offset
yields the UTC interpretation minus the offset and a `-hhmm` offset the UTC
interpretation plus the offset; no zone suffix yields local wall time (the
UTC interpretation shifted back by the local zone's eastward offset).  The
UTC interpretation of the fields is `dateUTC`, which includes ECMAScript's
`MakeFullYear` rule, so a year field in `[1,99]` (e.g. the string
`00500109T163000Z`) decodes to 19xx exactly as `Date.UTC` and the
multi-argument `Date` constructor do. -/
theorem parseZohoDate_correct (y mo d h mi s tzH tzM : Nat) (plus : Bool)
    (localOffsetMin fallback : Int)
    (hy1 : 1 ≤ y) (hy : y ≤ 9999) (hmo1 : 1 ≤ mo) (hmo : mo ≤ 12)
    (hd1 : 1 ≤ d) (hd : d ≤ 31) (hh : h ≤ 23) (hmi : mi ≤ 59) (hs : s ≤ 59)
    (htzH : tzH ≤ 99) (htzM : tzM ≤ 99) :
    parseZohoDate (renderZohoDate y mo d h mi s (some ZohoTZ.utc))
        localOffsetMin fallback =
      dateUTC y (mo - 1) d h mi s ∧
    parseZohoDate
        (renderZohoDate y mo d h mi s (some (ZohoTZ.offset plus tzH tzM)))
        localOffsetMin fallback =
      (if plus then
        dateUTC y (mo - 1) d h mi s - ((tzH * 60 + tzM : Nat) : Int) * 60000
      else
        dateUTC y (mo - 1) d h mi s + ((tzH * 60 + tzM : Nat) : Int) * 60000) ∧
    parseZohoDate (renderZohoDate y mo d h mi s none) localOffsetMin fallback =
      dateUTC y (mo - 1) d h mi s - localOffsetMin * 60000 := by
  refine ⟨?_, ?_, ?_⟩
  · show parseZohoDate (renderZohoDate y mo d h mi s (some ZohoTZ.utc))
        localOffsetMin fallback = dateUTC y (mo - 1) d h mi s
    unfold parseZohoDate
    rw [show (renderZohoDate y mo d h mi s (some ZohoTZ.utc)).data =
        pad4 y ++ pad2 mo ++ pad2 d ++ 'T' ::
          (pad2 h ++ pad2 mi ++ pad2 s ++ renderZohoTZ (some ZohoTZ.utc))
      from rfl]
    rw [matchZohoDate_render y mo d h mi s (some ZohoTZ.utc) hy (by omega)
      (by omega) (by omega) (by omega) (by omega) trivial]
  · show parseZohoDate
        (renderZohoDate y mo d h mi s (some (ZohoTZ.offset plus tzH tzM)))
        localOffsetMin fallback = _
    unfold parseZohoDate
    rw [show (renderZohoDate y mo d h mi s
          (some (ZohoTZ.offset plus tzH tzM))).data =
        pad4 y ++ pad2 mo ++ pad2 d ++ 'T' ::
          (pad2 h ++ pad2 mi ++ pad2 s ++
            renderZohoTZ (some (ZohoTZ.offset plus tzH tzM)))
      from rfl]
    rw [matchZohoDate_render y mo d h mi s (some (ZohoTZ.offset plus tzH tzM))
      hy (by omega) (by omega) (by omega) (by omega) (by omega) ⟨htzH, htzM⟩]
    cases plus <;> simp <;> ring
  · show parseZohoDate (renderZohoDate y mo d h mi s none)
        localOffsetMin fallback =
      dateUTC y (mo - 1) d h mi s - localOffsetMin * 60000
    unfold parseZohoDate
    rw [show (renderZohoDate y mo d h mi s none).data =
        pad4 y ++ pad2 mo ++ pad2 d ++ 'T' ::
          (pad2 h ++ pad2 mi ++ pad2 s ++ renderZohoTZ none)
      from rfl]
    rw [matchZohoDate_render y mo d h mi s none hy (by omega) (by omega)
      (by omega) (by omega) (by omega) trivial]

/-- Witness for C8 at the string family `20260109T163000(Z|+0530|)`, i.e.
2026-01-09 16:30:00 with each zone suffix, in an IST-like local zone
(330 minutes east of UTC). -/
theorem parseZohoDate_correct_witness :
    parseZohoDate (renderZohoDate 2026 1 9 16 30 0 (some ZohoTZ.utc)) 330 0 =
      dateUTC 2026 0 9 16 30 0 ∧
    parseZohoDate
        (renderZohoDate 2026 1 9 16 30 0 (some (ZohoTZ.offset true 5 30)))
        330 0 =
      (if true then
        dateUTC 2026 0 9 16 30 0 - ((5 * 60 + 30 : Nat) : Int) * 60000
      else
        dateUTC 2026 0 9 16 30 0 + ((5 * 60 + 30 : Nat) : Int) * 60000) ∧
    parseZohoDate (renderZohoDate 2026 1 9 16 30 0 none) 330 0 =
      dateUTC 2026 0 9 16 30 0 - 330 * 60000 :=
  parseZohoDate_correct 2026 1 9 16 30 0 5 30 true 330 0
    (by decide) (by decide) (by decide) (by decide) (by decide) (by decide)
    (by decide) (by decide) (by decide) (by decide) (by decide)
